import Mathlib

/-!
Shallow embedding of the ParaMEDMEM coupling layer of code_saturne
(src/base/cs_paramedmem_coupling.cxx), together with theorems checking the
natural-language specification against it.

The embedding follows the source file function by function:

* `InterpKernelDEC` models the external data exchange channel object at the
  granularity the coupling layer observes: the two rank groups it was built
  from, the list of attached local fields, and counters recording how many
  times the external collective operations `synchronize` and `sendData`
  were invoked on it.
* `cs_paramedmem_coupling_t`, `_paramedmem_mesh_t` and `_paramedmem_field_t`
  mirror the C structures.  C arrays become lists, `NULL`-able pointers
  become `Option`, C `int` flags stay integers.
* Functions of the build with coupling support (`HAVE_PARAMEDMEM` defined)
  are translated from the corresponding branch of the source.  `bft_error`
  (a fatal error) is modelled as `Except.error`; a function whose compiled
  branch contains no `bft_error` call is therefore total or always `ok`.
* The build without coupling support is modelled separately by the
  `stub_...` constants: for each public function, whether its stub raises
  the uniform capability error, and which sentinel it returns.
* The value-copy loops of `cs_paramedmem_field_export` and
  `cs_paramedmem_field_import` are modelled over buffers `Nat → ℚ`
  (the loops only copy double values, so an exact value type is faithful),
  with the mesh data (`n_elts`, `elt_list`, `new_to_old`) passed explicitly.
-/

/-- Model of the external `InterpKernelDEC` object as observed by this file:
the source and target rank groups it is constructed from, the attached
local fields, and counters of the collective calls made on it. -/
structure InterpKernelDEC where
  src_ranks : Finset Int
  tgt_ranks : Finset Int
  attached : List Nat
  n_syncs : Nat
  n_sends : Nat

/-- Model of the external `ParaMESH` object: the processor group it is
bound to and its label string. -/
structure ParaMESH where
  grp : Finset Int
  label : String

/-- External call `dec->attachLocalField(pf)`: records the attachment of a
local field (identified by its id in the coupling) on the channel. -/
def attachLocalField (dec : InterpKernelDEC) (f_id : Nat) : InterpKernelDEC :=
  { dec with attached := dec.attached ++ [f_id] }

/-- External call `dec->synchronize()`: builds the interpolation matrix;
modelled as bumping the counter of synchronization passes. -/
def synchronize (dec : InterpKernelDEC) : InterpKernelDEC :=
  { dec with n_syncs := dec.n_syncs + 1 }

/-- External call `dec->sendData()`: the collective push; modelled as
bumping the counter of send passes. -/
def sendData (dec : InterpKernelDEC) : InterpKernelDEC :=
  { dec with n_sends := dec.n_sends + 1 }

/-- `TypeOfField` of the MED library (`ON_CELLS` / `ON_NODES`). -/
inductive TypeOfField
  | ON_CELLS
  | ON_NODES
deriving DecidableEq

/-- `TypeOfTimeDiscretization` of the MED library. -/
inductive TypeOfTimeDiscretization
  | NO_TIME
  | ONE_TIME
  | LINEAR_TIME
deriving DecidableEq

/-- `_paramedmem_mesh_t` together with the `cs_medcoupling_mesh_t` it owns,
flattened: selection criteria, element dimension, local element count,
the name and the node/cell counts of the MED mesh, the direction bitmask
(1 send, 2 receive, 3 both), and the two lazily built `ParaMESH` slots
(index 0 send side, index 1 receive side). -/
structure _paramedmem_mesh_t where
  sel_criteria : String
  elt_dim : Int
  n_elts : Nat
  med_mesh_name : String
  med_nodes : Nat
  med_cells : Nat
  direction : Nat
  para_mesh0 : Option ParaMESH
  para_mesh1 : Option ParaMESH

/-- `_paramedmem_field_t`: owning mesh id, component count, time
discretization, the MED field name, the size of the allocated value array
(`n_locs * dim`), and the `ParaFIELD` object if one was created (`some k`
records that the field was built on para mesh slot `k`). -/
structure _paramedmem_field_t where
  mesh_id : Nat
  dim : Nat
  td : TypeOfTimeDiscretization
  fname : String
  buf_size : Nat
  pf : Option Nat

/-- `cs_paramedmem_coupling_t`: the coupling session structure. -/
structure cs_paramedmem_coupling_t where
  name : String
  n_meshes : Nat
  meshes : List _paramedmem_mesh_t
  n_fields : Nat
  fields : List _paramedmem_field_t
  send_dec : Option InterpKernelDEC
  recv_dec : Option InterpKernelDEC
  send_synced : Nat
  recv_synced : Nat

/-- Fatal errors raised through `bft_error`. -/
inductive cs_error
  | unsupported_configuration
  | other

/-- Whether a modelled call returned normally (did not hit `bft_error`). -/
def cs_call_ok {A : Type} (r : Except cs_error A) : Bool :=
  match r with
  | .ok _ => true
  | .error _ => false

/-- Default mesh used to model unchecked C array indexing out of range. -/
def default_mesh : _paramedmem_mesh_t :=
  { sel_criteria := "", elt_dim := 0, n_elts := 0, med_mesh_name := "",
    med_nodes := 0, med_cells := 0, direction := 0,
    para_mesh0 := none, para_mesh1 := none }

/-- Default field used to model unchecked C array indexing out of range. -/
def default_field : _paramedmem_field_t :=
  { mesh_id := 0, dim := 0, td := TypeOfTimeDiscretization.NO_TIME,
    fname := "", buf_size := 0, pf := none }

/-- `_cs_paramedmem_create_InterpKernelDEC`: inserts the two rank lists into
two sets and builds the DEC from them (source group first, target group
second). -/
def _cs_paramedmem_create_InterpKernelDEC (grp1_global_ranks grp2_global_ranks : List Int) :
    InterpKernelDEC :=
  { src_ranks := grp1_global_ranks.toFinset,
    tgt_ranks := grp2_global_ranks.toFinset,
    attached := [], n_syncs := 0, n_sends := 0 }

/-- `_add_paramedmem_interpkernel`: builds a new coupling session.  The
calling process (global rank `my_rank`, obtained from `MPI_Comm_rank` in the
source and passed explicitly here) is looked up in group 1 only; if found
there the send channel is `DEC(grp1, grp2)` and the receive channel
`DEC(grp2, grp1)`, otherwise the roles of the groups are swapped.  No
membership validation of any kind is performed. -/
def _add_paramedmem_interpkernel (cname : String)
    (grp1_global_ranks grp2_global_ranks : List Int) (my_rank : Int) :
    cs_paramedmem_coupling_t :=
  if my_rank ∈ grp1_global_ranks then
    { name := cname, n_meshes := 0, meshes := [], n_fields := 0, fields := [],
      send_dec := some (_cs_paramedmem_create_InterpKernelDEC
        grp1_global_ranks grp2_global_ranks),
      recv_dec := some (_cs_paramedmem_create_InterpKernelDEC
        grp2_global_ranks grp1_global_ranks),
      send_synced := 0, recv_synced := 0 }
  else
    { name := cname, n_meshes := 0, meshes := [], n_fields := 0, fields := [],
      recv_dec := some (_cs_paramedmem_create_InterpKernelDEC
        grp1_global_ranks grp2_global_ranks),
      send_dec := some (_cs_paramedmem_create_InterpKernelDEC
        grp2_global_ranks grp1_global_ranks),
      send_synced := 0, recv_synced := 0 }

/-- `cs_paramedmem_interpkernel_create`, build with coupling support: the
compiled branch contains no `bft_error`, it delegates to
`_add_paramedmem_interpkernel` and returns the new session. -/
def cs_paramedmem_interpkernel_create (cname : String)
    (grp1_global_ranks grp2_global_ranks : List Int) (my_rank : Int) :
    Except cs_error cs_paramedmem_coupling_t :=
  Except.ok (_add_paramedmem_interpkernel cname grp1_global_ranks
    grp2_global_ranks my_rank)

/-- `cs_paramedmem_define_mesh`, build with coupling support: allocates the
mesh entry, stores the selection criteria and element dimension, computes
the direction bitmask as `(is_source ? 1 : 0) + (is_dest ? 2 : 0)` with no
validation, creates an empty MED mesh, appends the entry and returns its
id.  The compiled branch contains no `bft_error`. -/
def cs_paramedmem_define_mesh (coupling : cs_paramedmem_coupling_t)
    (mname select_criteria : String) (elt_dim : Int)
    (is_source is_dest : Bool) :
    Except cs_error (cs_paramedmem_coupling_t × Nat) :=
  Except.ok
    ({ coupling with
        n_meshes := coupling.n_meshes + 1,
        meshes := coupling.meshes ++
          [{ sel_criteria := select_criteria, elt_dim := elt_dim, n_elts := 0,
             med_mesh_name := mname, med_nodes := 0, med_cells := 0,
             direction := (if is_source then 1 else 0) + (if is_dest then 2 else 0),
             para_mesh0 := none, para_mesh1 := none }] },
     coupling.n_meshes)

/-- `cs_paramedmem_sync_dec`, build with coupling support: for
`dec_to_sync == 1` the send channel is synchronized if and only if
`send_synced` is still 0, and the flag is then set; any other value of
`dec_to_sync` does the same for the receive channel. -/
def cs_paramedmem_sync_dec (coupling : cs_paramedmem_coupling_t)
    (dec_to_sync : Int) : cs_paramedmem_coupling_t :=
  if dec_to_sync = 1 then
    (if coupling.send_synced = 0 then
      { coupling with send_dec := Option.map synchronize coupling.send_dec,
                      send_synced := 1 }
    else coupling)
  else if coupling.recv_synced = 0 then
    { coupling with recv_dec := Option.map synchronize coupling.recv_dec,
                    recv_synced := 1 }
  else coupling

/-- `n` successive calls of `cs_paramedmem_sync_dec` with the same
direction argument. -/
def cs_paramedmem_sync_dec_iter (coupling : cs_paramedmem_coupling_t)
    (dec_to_sync : Int) : Nat → cs_paramedmem_coupling_t
  | 0 => coupling
  | n + 1 => cs_paramedmem_sync_dec
      (cs_paramedmem_sync_dec_iter coupling dec_to_sync n) dec_to_sync

/-- `cs_paramedmem_send_data`, build with coupling support: the body is a
single unconditional `send_dec->sendData()`; no synchronization state is
inspected and no error can be raised. -/
def cs_paramedmem_send_data (coupling : cs_paramedmem_coupling_t) :
    Except cs_error cs_paramedmem_coupling_t :=
  Except.ok { coupling with send_dec := Option.map sendData coupling.send_dec }

/-- `cs_paramedmem_reattach_field`, build with coupling support: looks up the
mesh of the field and re-attaches the field to the send channel when the
direction bitmask is exactly 1, to the receive channel when it is exactly
2, and does nothing for any other value (0 or 3). -/
def cs_paramedmem_reattach_field (coupling : cs_paramedmem_coupling_t)
    (field_id : Nat) : cs_paramedmem_coupling_t :=
  let mesh_id := (coupling.fields.getD field_id default_field).mesh_id
  let pmesh := coupling.meshes.getD mesh_id default_mesh
  if pmesh.direction = 1 then
    { coupling with
        send_dec := Option.map (fun dec => attachLocalField dec field_id) coupling.send_dec }
  else if pmesh.direction = 2 then
    { coupling with
        recv_dec := Option.map (fun dec => attachLocalField dec field_id) coupling.recv_dec }
  else coupling

/-- Constant `cs_medcpl_cell_field` of the source. -/
def cs_medcpl_cell_field : Int := 0

/-- Constant `cs_medcpl_vertex_field` of the source. -/
def cs_medcpl_vertex_field : Int := 1

/-- Constant `cs_medcpl_no_time` of the source. -/
def cs_medcpl_no_time : Int := 0

/-- Constant `cs_medcpl_one_time` of the source. -/
def cs_medcpl_one_time : Int := 1

/-- Constant `cs_medcpl_linear_time` of the source. -/
def cs_medcpl_linear_time : Int := 2

/-- The `TypeOfField` chosen by `cs_paramedmem_field_add` from the
`medcpl_field_type` argument (default `ON_CELLS`, then the two `else if`
tests of the source). -/
def _field_type_of (medcpl_field_type : Int) : TypeOfField :=
  if medcpl_field_type = cs_medcpl_cell_field then TypeOfField.ON_CELLS
  else if medcpl_field_type = cs_medcpl_vertex_field then TypeOfField.ON_NODES
  else TypeOfField.ON_CELLS

/-- The `TypeOfTimeDiscretization` chosen by `cs_paramedmem_field_add` from
the `medcpl_time_discr` argument (default `NO_TIME`). -/
def _time_discr_of (medcpl_time_discr : Int) : TypeOfTimeDiscretization :=
  if medcpl_time_discr = cs_medcpl_no_time then TypeOfTimeDiscretization.NO_TIME
  else if medcpl_time_discr = cs_medcpl_one_time then TypeOfTimeDiscretization.ONE_TIME
  else if medcpl_time_discr = cs_medcpl_linear_time then TypeOfTimeDiscretization.LINEAR_TIME
  else TypeOfTimeDiscretization.NO_TIME

/-- The number of located points used by `cs_paramedmem_field_add` to size
the value array: node count for `ON_NODES`, cell count for `ON_CELLS`
(`n_locs` starts at 0 in the source). -/
def _field_n_locs (pmesh : _paramedmem_mesh_t) (medcpl_field_type : Int) : Nat :=
  if _field_type_of medcpl_field_type = TypeOfField.ON_NODES then pmesh.med_nodes
  else if _field_type_of medcpl_field_type = TypeOfField.ON_CELLS then pmesh.med_cells
  else 0

/-- `cs_paramedmem_field_add`, build with coupling support.  A `ParaFIELD`
is built and attached only when `dirflag == 1` with a non-null send channel
(lazily creating para mesh slot 0 on the source group) or `dirflag == 2`
with a non-null receive channel (slot 1 on the target group); in every
other case a plain MED field is created, attached to nothing.  The value
array is allocated with `n_locs * dim` entries, the field entry is stored
at index `n_fields`, the counter is incremented and the id returned.  The
compiled branch contains no `bft_error`. -/
def cs_paramedmem_field_add (coupling : cs_paramedmem_coupling_t)
    (fname : String) (mesh_id dim : Nat)
    (medcpl_field_type medcpl_time_discr dirflag : Int) :
    cs_paramedmem_coupling_t × Nat :=
  let pmesh := coupling.meshes.getD mesh_id default_mesh
  let td := _time_discr_of medcpl_time_discr
  let f_id := coupling.n_fields
  let n_locs := _field_n_locs pmesh medcpl_field_type
  let base_field : _paramedmem_field_t :=
    { mesh_id := mesh_id, dim := dim, td := td, fname := fname,
      buf_size := n_locs * dim, pf := none }
  if dirflag = 1 then
    match coupling.send_dec with
    | some sd =>
      let pm0 := match pmesh.para_mesh0 with
        | some pm => pm
        | none => { grp := sd.src_ranks, label := "source mesh" }
      ({ coupling with
          meshes := coupling.meshes.set mesh_id { pmesh with para_mesh0 := some pm0 },
          fields := coupling.fields ++ [{ base_field with pf := some 0 }],
          send_dec := some (attachLocalField sd f_id),
          n_fields := coupling.n_fields + 1 }, f_id)
    | none =>
      ({ coupling with
          fields := coupling.fields ++ [base_field],
          n_fields := coupling.n_fields + 1 }, f_id)
  else if dirflag = 2 then
    match coupling.recv_dec with
    | some rd =>
      let pm1 := match pmesh.para_mesh1 with
        | some pm => pm
        | none => { grp := rd.tgt_ranks, label := "target mesh" }
      ({ coupling with
          meshes := coupling.meshes.set mesh_id { pmesh with para_mesh1 := some pm1 },
          fields := coupling.fields ++ [{ base_field with pf := some 1 }],
          recv_dec := some (attachLocalField rd f_id),
          n_fields := coupling.n_fields + 1 }, f_id)
    | none =>
      ({ coupling with
          fields := coupling.fields ++ [base_field],
          n_fields := coupling.n_fields + 1 }, f_id)
  else
    ({ coupling with
        fields := coupling.fields ++ [base_field],
        n_fields := coupling.n_fields + 1 }, f_id)

/-- Sentinel returned by a public function in the build without coupling
support. -/
inductive NoParamedRet
  | ret_void
  | ret_null
  | ret_neg_one
  | ret_zero

/-- Behaviour of a public function in the build without coupling support
(`HAVE_PARAMEDMEM` undefined): whether its body calls `bft_error` with the
uniform message about missing MEDCoupling MPI support, and which value it
returns. -/
structure NoParamedStub where
  raises_capability_error : Bool
  ret : NoParamedRet

/-- Stub of `cs_paramedmem_interpkernel_create` without coupling support:
raises the uniform error and returns the `NULL` pointer `c`. -/
def stub_cs_paramedmem_interpkernel_create : NoParamedStub :=
  { raises_capability_error := true, ret := NoParamedRet.ret_null }

/-- Stub of `cs_paramedmem_destroy`: raises the uniform error, `void`. -/
def stub_cs_paramedmem_destroy : NoParamedStub :=
  { raises_capability_error := true, ret := NoParamedRet.ret_void }

/-- Stub of `cs_paramedmem_define_mesh`: raises the uniform error and
returns the initial id value `-1`. -/
def stub_cs_paramedmem_define_mesh : NoParamedStub :=
  { raises_capability_error := true, ret := NoParamedRet.ret_neg_one }

/-- Stub of `cs_paramedmem_init_meshes`: raises the uniform error, `void`. -/
def stub_cs_paramedmem_init_meshes : NoParamedStub :=
  { raises_capability_error := true, ret := NoParamedRet.ret_void }

/-- Stub of `cs_paramedmem_mesh_id`: raises the uniform error and returns
the initial `retval` of `-1`. -/
def stub_cs_paramedmem_mesh_id : NoParamedStub :=
  { raises_capability_error := true, ret := NoParamedRet.ret_neg_one }

/-- Stub of `cs_paramedmem_mesh_get_n_elts`: raises the uniform error and
returns the initial `retval` of `0`. -/
def stub_cs_paramedmem_mesh_get_n_elts : NoParamedStub :=
  { raises_capability_error := true, ret := NoParamedRet.ret_zero }

/-- Stub of `cs_paramedmem_mesh_get_elt_list`: raises the uniform error and
returns the initial `NULL` pointer. -/
def stub_cs_paramedmem_mesh_get_elt_list : NoParamedStub :=
  { raises_capability_error := true, ret := NoParamedRet.ret_null }

/-- Stub of `cs_paramedmem_field_add`: raises the uniform error and returns
the initial `f_id` of `-1`. -/
def stub_cs_paramedmem_field_add : NoParamedStub :=
  { raises_capability_error := true, ret := NoParamedRet.ret_neg_one }

/-- Stub of `cs_paramedmem_field_get_id`: raises the uniform error and
returns the initial `f_id` of `-1`. -/
def stub_cs_paramedmem_field_get_id : NoParamedStub :=
  { raises_capability_error := true, ret := NoParamedRet.ret_neg_one }

/-- Stub of `cs_paramedmem_field_export`: raises the uniform error, `void`. -/
def stub_cs_paramedmem_field_export : NoParamedStub :=
  { raises_capability_error := true, ret := NoParamedRet.ret_void }

/-- Stub of `cs_paramedmem_field_import`: raises the uniform error, `void`. -/
def stub_cs_paramedmem_field_import : NoParamedStub :=
  { raises_capability_error := true, ret := NoParamedRet.ret_void }

/-- Stub of `cs_paramedmem_sync_dec`: raises the uniform error, `void`. -/
def stub_cs_paramedmem_sync_dec : NoParamedStub :=
  { raises_capability_error := true, ret := NoParamedRet.ret_void }

/-- Stub of `cs_paramedmem_send_data`: raises the uniform error, `void`. -/
def stub_cs_paramedmem_send_data : NoParamedStub :=
  { raises_capability_error := true, ret := NoParamedRet.ret_void }

/-- Stub of `cs_paramedmem_recv_data`: raises the uniform error, `void`. -/
def stub_cs_paramedmem_recv_data : NoParamedStub :=
  { raises_capability_error := true, ret := NoParamedRet.ret_void }

/-- Stub of `cs_paramedmem_reattach_field`: raises the uniform error,
`void`. -/
def stub_cs_paramedmem_reattach_field : NoParamedStub :=
  { raises_capability_error := true, ret := NoParamedRet.ret_void }

/-- Stub of `cs_paramedmem_get_mpi_comm_world_ranks` without coupling
support: its body is a bare `return NULL` with no `bft_error` call. -/
def stub_cs_paramedmem_get_mpi_comm_world_ranks : NoParamedStub :=
  { raises_capability_error := false, ret := NoParamedRet.ret_null }

/-- Pointwise update of a value buffer: the effect of the C assignment
`a[i] = v` on a buffer viewed as a function. -/
def updf (a : Nat → ℚ) (i : Nat) (v : ℚ) : Nat → ℚ :=
  fun k => if k = i then v else a k

/-- A C `for` loop performing `J` writes `a[idx j] = v j` for
`j = 0, ..., J-1` in increasing order. -/
def wloop (idx : Nat → Nat) (v : Nat → ℚ) : Nat → (Nat → ℚ) → Nat → ℚ
  | 0, a => a
  | j + 1, a => updf (wloop idx v j a) (idx j) (v j)

/-- Inner `j` loop of the `on_parent` branch of `cs_paramedmem_field_export`:
`val_ptr[i*dim + j] = field_values[elt_list[i]*dim + j]`. -/
def _export_gather_row (field_values : Nat → ℚ) (elt_list : Nat → Nat)
    (dim i J : Nat) (val : Nat → ℚ) : Nat → ℚ :=
  wloop (fun j => i * dim + j) (fun j => field_values (elt_list i * dim + j)) J val

/-- Outer `i` loop of the `on_parent` branch of
`cs_paramedmem_field_export`. -/
def _export_gather (field_values : Nat → ℚ) (elt_list : Nat → Nat)
    (dim : Nat) : Nat → (Nat → ℚ) → Nat → ℚ
  | 0, val => val
  | n + 1, val => _export_gather_row field_values elt_list dim n dim
      (_export_gather field_values elt_list dim n val)

/-- Contiguous copy loop of the `!on_parent` branch of
`cs_paramedmem_field_export`: `val_ptr[i] = field_values[i]` for
`i = 0, ..., dim*n_elts - 1`. -/
def _export_block (field_values : Nat → ℚ) (m : Nat) (val : Nat → ℚ) : Nat → ℚ :=
  wloop (fun j => j) field_values m val

/-- `cs_paramedmem_field_export` value semantics: copies from the caller
array `field_values` into the internal MED array `val`.  With `on_parent`
the copy gathers through `elt_list`, otherwise it is a contiguous block
copy of `dim * n_elts` entries. -/
def cs_paramedmem_field_export (dim n_elts : Nat) (elt_list : Nat → Nat)
    (on_parent : Bool) (field_values val : Nat → ℚ) : Nat → ℚ :=
  if on_parent then _export_gather field_values elt_list dim n_elts val
  else _export_block field_values (dim * n_elts) val

/-- Inner `j` loop of `cs_paramedmem_field_import` for an index map `emap`:
`field_values[emap i * dim + j] = val_ptr[i*dim + j]`.  The `on_parent`
branch of the source uses `elt_list` as the map (writing at
`elt_list[i]*dim + j`), the `!on_parent` branch uses `new_to_old` (writing
at `dim*new_to_old[i] + j`, the same position). -/
def _import_scatter_row (val : Nat → ℚ) (emap : Nat → Nat)
    (dim i J : Nat) (field_values : Nat → ℚ) : Nat → ℚ :=
  wloop (fun j => emap i * dim + j) (fun j => val (i * dim + j)) J field_values

/-- Outer `i` loop of `cs_paramedmem_field_import` for an index map. -/
def _import_scatter (val : Nat → ℚ) (emap : Nat → Nat)
    (dim : Nat) : Nat → (Nat → ℚ) → Nat → ℚ
  | 0, field_values => field_values
  | n + 1, field_values => _import_scatter_row val emap dim n dim
      (_import_scatter val emap dim n field_values)

/-- `cs_paramedmem_field_import` value semantics: copies from the internal
MED array `val` back into the caller array `field_values`, scattering
through `elt_list` when `on_parent` and through `new_to_old` otherwise. -/
def cs_paramedmem_field_import (dim n_elts : Nat) (elt_list new_to_old : Nat → Nat)
    (on_parent : Bool) (val field_values : Nat → ℚ) : Nat → ℚ :=
  if on_parent then _import_scatter val elt_list dim n_elts field_values
  else _import_scatter val new_to_old dim n_elts field_values

/-- Name constant used by the concrete examples. -/
def nm_cpl : String := "cpl"

/-- Mesh name constant used by the concrete examples. -/
def nm_mesh : String := "m"

/-- Selection criteria constant used by the concrete examples. -/
def nm_all : String := "all"

/-- Field name constant used by the concrete examples. -/
def nm_f : String := "f"

/-- Concrete fresh session for the C1 witness: groups `{0}` and `{1}`,
calling rank 0. -/
def c1_session : cs_paramedmem_coupling_t :=
  _add_paramedmem_interpkernel nm_cpl [0] [1] 0

/-- Concrete fresh (hence unsynchronized) session for the C2
counterexample. -/
def c2_session : cs_paramedmem_coupling_t :=
  _add_paramedmem_interpkernel nm_cpl [0] [1] 0

/-- Concrete session for the C4 counterexample. -/
def c4_session : cs_paramedmem_coupling_t :=
  _add_paramedmem_interpkernel nm_cpl [0] [1] 0

/-- Concrete selection list for the C7 witness (selects original indices
1 and 2 of the parent mesh). -/
def c7_elt_list : Nat → Nat := fun i => i + 1

/-- Concrete identity compact-to-original map for the C7 witness. -/
def c7_new_to_old : Nat → Nat := fun i => i

/-- Concrete caller array for the C7 witness. -/
def c7_field_values : Nat → ℚ := fun k => (k : ℚ)

/-- Concrete initial internal buffer for the C7 witness. -/
def c7_val : Nat → ℚ := fun _ => 0

/-- Concrete destination array for the C7 witness. -/
def c7_dest : Nat → ℚ := fun k => (k : ℚ) + 100

/-- Concrete selection list for the C8 witness (never hits original
index 0). -/
def c8_elt_list : Nat → Nat := fun i => i + 1

/-- Concrete compact-to-original map for the C8 witness. -/
def c8_new_to_old : Nat → Nat := fun i => i

/-- Concrete caller array for the C8 witness. -/
def c8_field_values : Nat → ℚ := fun k => (k : ℚ)

/-- Concrete initial internal buffer for the C8 witness. -/
def c8_val : Nat → ℚ := fun _ => 7

/-- Concrete destination array for the C8 witness. -/
def c8_dest : Nat → ℚ := fun k => (k : ℚ) + 100

/-- Concrete mesh registered as both source and destination (direction
bitmask 3) for the C9 witness. -/
def c9_mesh : _paramedmem_mesh_t :=
  { sel_criteria := nm_all, elt_dim := 3, n_elts := 4, med_mesh_name := nm_mesh,
    med_nodes := 8, med_cells := 4, direction := 3,
    para_mesh0 := none, para_mesh1 := none }

/-- Concrete field living on `c9_mesh` for the C9 witness. -/
def c9_field : _paramedmem_field_t :=
  { mesh_id := 0, dim := 1, td := TypeOfTimeDiscretization.ONE_TIME,
    fname := nm_f, buf_size := 4, pf := none }

/-- Concrete session for the C9 witness. -/
def c9_session : cs_paramedmem_coupling_t :=
  { name := nm_cpl, n_meshes := 1, meshes := [c9_mesh], n_fields := 1,
    fields := [c9_field],
    send_dec := some (_cs_paramedmem_create_InterpKernelDEC [0] [1]),
    recv_dec := some (_cs_paramedmem_create_InterpKernelDEC [1] [0]),
    send_synced := 0, recv_synced := 0 }

/-- Concrete mesh for the C10 witness. -/
def c10_mesh : _paramedmem_mesh_t :=
  { sel_criteria := nm_all, elt_dim := 3, n_elts := 4, med_mesh_name := nm_mesh,
    med_nodes := 8, med_cells := 4, direction := 3,
    para_mesh0 := none, para_mesh1 := none }

/-- Concrete session for the C10 witness. -/
def c10_session : cs_paramedmem_coupling_t :=
  { name := nm_cpl, n_meshes := 1, meshes := [c10_mesh], n_fields := 0,
    fields := [], send_dec := none, recv_dec := none,
    send_synced := 0, recv_synced := 0 }

/-- Updating position `i` stores the value at `i`. -/
theorem updf_self (a : Nat → ℚ) (i : Nat) (v : ℚ) : updf a i v i = v := by
  simp [updf]

/-- Updating position `i` leaves every other position unchanged. -/
theorem updf_ne (a : Nat → ℚ) (i : Nat) (v : ℚ) {k : Nat} (h : k ≠ i) :
    updf a i v k = a k := by
  simp [updf, h]

/-- Uniqueness of the row/column decomposition `i * dim + j` with
`j < dim`. -/
theorem rowcol_inj {dim i j i2 j2 : Nat} (hj : j < dim) (hj2 : j2 < dim)
    (h : i * dim + j = i2 * dim + j2) : i = i2 ∧ j = j2 := by
  have hd : 0 < dim := Nat.lt_of_le_of_lt (Nat.zero_le j) hj
  have h1 : j + dim * i = j2 + dim * i2 := by
    rw [Nat.add_comm j (dim * i), Nat.add_comm j2 (dim * i2),
      Nat.mul_comm dim i, Nat.mul_comm dim i2]
    exact h
  have e1 : (j + dim * i) / dim = i := by
    rw [Nat.add_mul_div_left j i hd, Nat.div_eq_of_lt hj, Nat.zero_add]
  have e2 : (j2 + dim * i2) / dim = i2 := by
    rw [Nat.add_mul_div_left j2 i2 hd, Nat.div_eq_of_lt hj2, Nat.zero_add]
  have hi : i = i2 := by rw [← e1, ← e2, h1]
  refine ⟨hi, ?_⟩
  have h2 := h
  rw [hi] at h2
  exact Nat.add_left_cancel h2

/-- A position within a row is below the total block size. -/
theorem idx_lt_mul {dim n i j : Nat} (hi : i < n) (hj : j < dim) :
    i * dim + j < dim * n := by
  have h1 : i * dim + j < (i + 1) * dim := by
    rw [Nat.succ_mul]
    exact Nat.add_lt_add_left hj (i * dim)
  have h2 : (i + 1) * dim ≤ n * dim := Nat.mul_le_mul_right dim hi
  calc i * dim + j < (i + 1) * dim := h1
    _ ≤ n * dim := h2
    _ = dim * n := Nat.mul_comm n dim

/-- A write loop leaves untouched every position it never writes to. -/
theorem wloop_frame (idx : Nat → Nat) (v : Nat → ℚ) (J : Nat) (a : Nat → ℚ)
    (p : Nat) : (∀ j, j < J → p ≠ idx j) → wloop idx v J a p = a p := by
  induction J with
  | zero => intro _; rfl
  | succ J ih =>
    intro h
    show updf (wloop idx v J a) (idx J) (v J) p = a p
    rw [updf_ne _ _ _ (h J (Nat.lt_succ_self J))]
    exact ih (fun j hj => h j (Nat.lt_succ_of_lt hj))

/-- A write loop with injective write positions stores the `j`-th value at
the `j`-th position. -/
theorem wloop_at (idx : Nat → Nat) (v : Nat → ℚ) (J : Nat) (a : Nat → ℚ)
    (j : Nat) : j < J → (∀ j2, j2 < J → idx j2 = idx j → j2 = j) →
    wloop idx v J a (idx j) = v j := by
  induction J with
  | zero => intro hj _; exact absurd hj (Nat.not_lt_zero j)
  | succ J ih =>
    intro hj hinj
    show updf (wloop idx v J a) (idx J) (v J) (idx j) = v j
    by_cases hje : j = J
    · rw [hje, updf_self]
    · have hne : idx j ≠ idx J := by
        intro hc
        exact hje (hinj J (Nat.lt_succ_self J) hc.symm).symm
      rw [updf_ne _ _ _ hne]
      exact ih (lt_of_le_of_ne (Nat.le_of_lt_succ hj) hje)
        (fun j2 hj2 he => hinj j2 (Nat.lt_succ_of_lt hj2) he)

/-- The gathering export stores `field_values[elt_list[i]*dim + j]` at
internal position `i*dim + j`. -/
theorem _export_gather_at (field_values : Nat → ℚ) (elt_list : Nat → Nat)
    (dim n : Nat) (val : Nat → ℚ) (i j : Nat) : i < n → j < dim →
    _export_gather field_values elt_list dim n val (i * dim + j)
      = field_values (elt_list i * dim + j) := by
  induction n with
  | zero => intro hi _; exact absurd hi (Nat.not_lt_zero i)
  | succ n ih =>
    intro hi hj
    show _export_gather_row field_values elt_list dim n dim
        (_export_gather field_values elt_list dim n val) (i * dim + j)
      = field_values (elt_list i * dim + j)
    by_cases hin : i = n
    · subst hin
      unfold _export_gather_row
      exact wloop_at _ _ dim _ j hj (fun j2 hj2 he => Nat.add_left_cancel he)
    · have hi2 : i < n := lt_of_le_of_ne (Nat.le_of_lt_succ hi) hin
      have hfr : ∀ j2, j2 < dim → i * dim + j ≠ n * dim + j2 := by
        intro j2 hj2 hc
        exact hin (rowcol_inj hj hj2 hc).1
      unfold _export_gather_row
      exact Eq.trans (wloop_frame _ _ dim _ _ hfr) (ih hi2 hj)

/-- The contiguous block export copies every position below the block
size unchanged from the caller array. -/
theorem _export_block_at (field_values : Nat → ℚ) (m : Nat) (val : Nat → ℚ)
    (p : Nat) : p < m → _export_block field_values m val p = field_values p := by
  intro hp
  unfold _export_block
  exact wloop_at (fun j => j) field_values m val p hp (fun j2 _ he => he)

/-- If the internal buffer holds, row by row, the image under `w` of the
scattered positions, then the scattering import reproduces `w` at every
covered position (duplicates in the map are harmless: every writer of a
position writes the same value). -/
theorem _import_scatter_covered (val : Nat → ℚ) (emap : Nat → Nat)
    (dim n : Nat) (field_values w : Nat → ℚ) (i j : Nat) :
    (∀ i2 j2, i2 < n → j2 < dim → val (i2 * dim + j2) = w (emap i2 * dim + j2)) →
    i < n → j < dim →
    _import_scatter val emap dim n field_values (emap i * dim + j)
      = w (emap i * dim + j) := by
  induction n with
  | zero => intro _ hi _; exact absurd hi (Nat.not_lt_zero i)
  | succ n ih =>
    intro hall hi hj
    show _import_scatter_row val emap dim n dim
        (_import_scatter val emap dim n field_values) (emap i * dim + j)
      = w (emap i * dim + j)
    by_cases hc : ∃ j2, j2 < dim ∧ emap i * dim + j = emap n * dim + j2
    · obtain ⟨j2, hj2, hpos⟩ := hc
      rw [hpos]
      unfold _import_scatter_row
      exact Eq.trans
        (wloop_at _ _ dim _ j2 hj2 (fun j3 hj3 he => Nat.add_left_cancel he))
        (hall n j2 (Nat.lt_succ_self n) hj2)
    · push_neg at hc
      have hin : i ≠ n := by
        intro he
        exact hc j hj (by rw [he])
      have hi2 : i < n := lt_of_le_of_ne (Nat.le_of_lt_succ hi) hin
      unfold _import_scatter_row
      exact Eq.trans
        (wloop_frame _ _ dim _ _ (fun j2 hj2 => hc j2 hj2))
        (ih (fun i2 j2 hi2b hj2 => hall i2 j2 (Nat.lt_succ_of_lt hi2b) hj2) hi2 hj)

/-- The scattering import never touches a position outside the image of
the scattered index set. -/
theorem _import_scatter_frame (val : Nat → ℚ) (emap : Nat → Nat)
    (dim n : Nat) (field_values : Nat → ℚ) (p : Nat) :
    (∀ i j, i < n → j < dim → p ≠ emap i * dim + j) →
    _import_scatter val emap dim n field_values p = field_values p := by
  induction n with
  | zero => intro _; rfl
  | succ n ih =>
    intro h
    show _import_scatter_row val emap dim n dim
        (_import_scatter val emap dim n field_values) p = field_values p
    unfold _import_scatter_row
    exact Eq.trans
      (wloop_frame _ _ dim _ _ (fun j2 hj2 => h n j2 (Nat.lt_succ_self n) hj2))
      (ih (fun i2 j2 hi2 hj2 => h i2 j2 (Nat.lt_succ_of_lt hi2) hj2))

/-- Calling `cs_paramedmem_sync_dec` twice with the same direction is the
same as calling it once: after the first call the flag of that direction is
set (or was already set) and the second call takes the no-op branch. -/
theorem cs_paramedmem_sync_dec_idem (c : cs_paramedmem_coupling_t) (d : Int) :
    cs_paramedmem_sync_dec (cs_paramedmem_sync_dec c d) d
      = cs_paramedmem_sync_dec c d := by
  by_cases hd : d = 1
  · by_cases hs : c.send_synced = 0
    · have h1 : cs_paramedmem_sync_dec c d
          = { c with
              send_dec := Option.map synchronize c.send_dec,
              send_synced := 1 } := by
        simp [cs_paramedmem_sync_dec, hd, hs]
      rw [h1]
      simp [cs_paramedmem_sync_dec, hd]
    · have h1 : cs_paramedmem_sync_dec c d = c := by
        simp [cs_paramedmem_sync_dec, hd, hs]
      rw [h1, h1]
  · by_cases hr : c.recv_synced = 0
    · have h1 : cs_paramedmem_sync_dec c d
          = { c with
              recv_dec := Option.map synchronize c.recv_dec,
              recv_synced := 1 } := by
        simp [cs_paramedmem_sync_dec, hd, hr]
      rw [h1]
      simp [cs_paramedmem_sync_dec, hd]
    · have h1 : cs_paramedmem_sync_dec c d = c := by
        simp [cs_paramedmem_sync_dec, hd, hr]
      rw [h1, h1]

/-- Any positive number of `cs_paramedmem_sync_dec` calls with a fixed
direction produces the state of the first call. -/
theorem cs_paramedmem_sync_dec_iter_eq_one (c : cs_paramedmem_coupling_t)
    (d : Int) (n : Nat) : 1 ≤ n →
    cs_paramedmem_sync_dec_iter c d n = cs_paramedmem_sync_dec c d := by
  induction n with
  | zero => intro hn; exact absurd hn (by decide)
  | succ n ih =>
    intro _
    show cs_paramedmem_sync_dec (cs_paramedmem_sync_dec_iter c d n) d
      = cs_paramedmem_sync_dec c d
    cases Nat.eq_zero_or_pos n with
    | inl h0 => rw [h0]; rfl
    | inr hpos =>
      rw [ih hpos]
      exact cs_paramedmem_sync_dec_idem c d

/-- C1: on a session whose per-direction synced flags are still clear,
calling `cs_paramedmem_sync_dec` any number N of times (N at least 1) with
a fixed direction argument synchronizes the corresponding exchange channel
exactly once: the resulting state is exactly the state after the first
call, which performs one `synchronize` pass on the selected channel and
sets that direction's flag; every further call is a no-op leaving the
channel state unchanged. -/
theorem c1_sync_dec_syncs_exactly_once (c : cs_paramedmem_coupling_t)
    (d : Int) (n : Nat) (hn : 1 ≤ n) (hs : c.send_synced = 0)
    (hr : c.recv_synced = 0) :
    cs_paramedmem_sync_dec_iter c d n = cs_paramedmem_sync_dec c d
    ∧ cs_paramedmem_sync_dec c d
        = (if d = 1 then
            { c with
                send_dec := Option.map synchronize c.send_dec,
                send_synced := 1 }
          else
            { c with
                recv_dec := Option.map synchronize c.recv_dec,
                recv_synced := 1 }) := by
  refine ⟨cs_paramedmem_sync_dec_iter_eq_one c d n hn, ?_⟩
  by_cases hd : d = 1
  · simp [cs_paramedmem_sync_dec, hd, hs]
  · simp [cs_paramedmem_sync_dec, hd, hr]

/-- Witness for C1: a concrete fresh session, direction 1, three calls. -/
theorem c1_sync_dec_syncs_exactly_once_witness :
    (1 ≤ 3 ∧ c1_session.send_synced = 0 ∧ c1_session.recv_synced = 0)
    ∧ (cs_paramedmem_sync_dec_iter c1_session 1 3
          = cs_paramedmem_sync_dec c1_session 1
       ∧ cs_paramedmem_sync_dec c1_session 1
          = (if (1 : Int) = 1 then
              { c1_session with
                  send_dec := Option.map synchronize c1_session.send_dec,
                  send_synced := 1 }
            else
              { c1_session with
                  recv_dec := Option.map synchronize c1_session.recv_dec,
                  recv_synced := 1 })) :=
  ⟨⟨by decide, by decide, by decide⟩,
   c1_sync_dec_syncs_exactly_once c1_session 1 3 (by decide) (by decide) (by decide)⟩

/-- C2 counterexample: `c2_session` is freshly created, its send channel is
not synchronized, and `cs_paramedmem_send_data` nevertheless returns
normally after performing the collective `sendData` push, instead of
rejecting the call as an ordering error. -/
theorem c2_counterexample_send_before_sync_succeeds :
    c2_session.send_synced = 0
    ∧ cs_paramedmem_send_data c2_session
        = Except.ok { c2_session with
            send_dec := Option.map sendData c2_session.send_dec } :=
  ⟨by decide, rfl⟩

/-- C2 amended: `cs_paramedmem_send_data` performs no ordering check at
all: for every session, synchronized or not, it returns successfully after
the unconditional `sendData` push on the send channel; the synced flags
play no role. -/
theorem c2_send_data_unconditional (coupling : cs_paramedmem_coupling_t) :
    cs_paramedmem_send_data coupling
      = Except.ok { coupling with
          send_dec := Option.map sendData coupling.send_dec } := rfl

/-- C3 counterexample: with groups `{0}` and `{1}` and calling rank 5, a
rank in neither group, the create call does not fail with a configuration
error: it returns normally. -/
theorem c3_counterexample_rank_in_neither_accepted :
    cs_call_ok (cs_paramedmem_interpkernel_create nm_cpl [0] [1] 5) = true := rfl

/-- C3 amended: the create call performs no rank-membership validation:
for every pair of groups and every calling rank, including a rank in
neither or in both groups, it returns a new session; only membership in
group 1 is tested, and it alone decides the channel orientation (a rank in
both groups is treated as group 1, a rank in neither as group 2). -/
theorem c3_create_never_rejects (cname : String)
    (grp1 grp2 : List Int) (my_rank : Int) :
    cs_call_ok (cs_paramedmem_interpkernel_create cname grp1 grp2 my_rank) = true
    ∧ (_add_paramedmem_interpkernel cname grp1 grp2 my_rank).send_dec
        = some (if my_rank ∈ grp1 then
            _cs_paramedmem_create_InterpKernelDEC grp1 grp2
          else _cs_paramedmem_create_InterpKernelDEC grp2 grp1)
    ∧ (_add_paramedmem_interpkernel cname grp1 grp2 my_rank).recv_dec
        = some (if my_rank ∈ grp1 then
            _cs_paramedmem_create_InterpKernelDEC grp2 grp1
          else _cs_paramedmem_create_InterpKernelDEC grp1 grp2) := by
  refine ⟨rfl, ?_, ?_⟩
  · by_cases h : my_rank ∈ grp1 <;> simp [_add_paramedmem_interpkernel, h]
  · by_cases h : my_rank ∈ grp1 <;> simp [_add_paramedmem_interpkernel, h]

/-- C4 counterexample: defining a mesh with `is_source = false` and
`is_dest = false` on a concrete session is not rejected: the call returns
normally (the mesh entry is registered with direction bitmask 0). -/
theorem c4_counterexample_direction_zero_accepted :
    cs_call_ok (cs_paramedmem_define_mesh c4_session nm_mesh nm_all 3 false false)
      = true := rfl

/-- C4 amended: `cs_paramedmem_define_mesh` validates nothing: for every
combination of the two direction flags, including both false, it succeeds,
appends a mesh entry whose direction bitmask is
`(is_source ? 1 : 0) + (is_dest ? 2 : 0)` (0 when both are false), and
returns the valid mesh id `n_meshes`. -/
theorem c4_define_mesh_never_rejects (coupling : cs_paramedmem_coupling_t)
    (mname select_criteria : String) (elt_dim : Int)
    (is_source is_dest : Bool) :
    cs_paramedmem_define_mesh coupling mname select_criteria elt_dim
        is_source is_dest
      = Except.ok
          ({ coupling with
              n_meshes := coupling.n_meshes + 1,
              meshes := coupling.meshes ++
                [{ sel_criteria := select_criteria, elt_dim := elt_dim,
                   n_elts := 0, med_mesh_name := mname, med_nodes := 0,
                   med_cells := 0,
                   direction := (if is_source then 1 else 0)
                     + (if is_dest then 2 else 0),
                   para_mesh0 := none, para_mesh1 := none }] },
           coupling.n_meshes) := rfl

/-- C5 counterexample: in the build without coupling support,
`cs_paramedmem_get_mpi_comm_world_ranks` does not fail fatally with the
uniform unsupported-configuration error: its stub is a bare `return NULL`
with no `bft_error` call, contradicting the claim for this function. -/
theorem c5_counterexample_get_ranks_does_not_raise :
    stub_cs_paramedmem_get_mpi_comm_world_ranks.raises_capability_error
      = false := rfl

/-- C5 amended: in the build without coupling support every public
operation of the registration, transfer and rank-mapping interfaces except
`cs_paramedmem_get_mpi_comm_world_ranks` fails fatally with the single
uniform unsupported-configuration error and returns its sentinel, while
`cs_paramedmem_get_mpi_comm_world_ranks` silently returns the `NULL`
sentinel without raising any error. -/
theorem c5_capability_error_uniform_except_get_ranks :
    stub_cs_paramedmem_interpkernel_create.raises_capability_error = true
    ∧ stub_cs_paramedmem_destroy.raises_capability_error = true
    ∧ stub_cs_paramedmem_define_mesh.raises_capability_error = true
    ∧ stub_cs_paramedmem_init_meshes.raises_capability_error = true
    ∧ stub_cs_paramedmem_mesh_id.raises_capability_error = true
    ∧ stub_cs_paramedmem_mesh_get_n_elts.raises_capability_error = true
    ∧ stub_cs_paramedmem_mesh_get_elt_list.raises_capability_error = true
    ∧ stub_cs_paramedmem_field_add.raises_capability_error = true
    ∧ stub_cs_paramedmem_field_get_id.raises_capability_error = true
    ∧ stub_cs_paramedmem_field_export.raises_capability_error = true
    ∧ stub_cs_paramedmem_field_import.raises_capability_error = true
    ∧ stub_cs_paramedmem_sync_dec.raises_capability_error = true
    ∧ stub_cs_paramedmem_send_data.raises_capability_error = true
    ∧ stub_cs_paramedmem_recv_data.raises_capability_error = true
    ∧ stub_cs_paramedmem_reattach_field.raises_capability_error = true
    ∧ stub_cs_paramedmem_get_mpi_comm_world_ranks.raises_capability_error = false
    ∧ stub_cs_paramedmem_get_mpi_comm_world_ranks.ret = NoParamedRet.ret_null :=
  ⟨rfl, rfl, rfl, rfl, rfl, rfl, rfl, rfl, rfl, rfl, rfl, rfl, rfl, rfl, rfl,
   rfl, rfl⟩

/-- C6: for a session created from two disjoint rank groups with the
calling rank in one of them, the send channel is built from the own group
as source toward the other group as target and the receive channel the
other way round: a caller in group 1 gets send `DEC(grp1, grp2)` and
receive `DEC(grp2, grp1)`; otherwise (by the hypotheses the caller is then
in group 2) the two constructions are swapped. -/
theorem c6_dec_orientation (cname : String) (grp1 grp2 : List Int)
    (my_rank : Int) (hdisj : grp1.toFinset ∩ grp2.toFinset = ∅)
    (hmem : my_rank ∈ grp1 ∨ my_rank ∈ grp2) :
    ((_add_paramedmem_interpkernel cname grp1 grp2 my_rank).send_dec,
     (_add_paramedmem_interpkernel cname grp1 grp2 my_rank).recv_dec)
      = if my_rank ∈ grp1 then
          (some (_cs_paramedmem_create_InterpKernelDEC grp1 grp2),
           some (_cs_paramedmem_create_InterpKernelDEC grp2 grp1))
        else
          (some (_cs_paramedmem_create_InterpKernelDEC grp2 grp1),
           some (_cs_paramedmem_create_InterpKernelDEC grp1 grp2)) := by
  by_cases h : my_rank ∈ grp1 <;> simp [_add_paramedmem_interpkernel, h]

/-- Witness for C6: groups `{0}` and `{1}`, calling rank 0. -/
theorem c6_dec_orientation_witness :
    (([0] : List Int).toFinset ∩ ([1] : List Int).toFinset = ∅
     ∧ ((0 : Int) ∈ ([0] : List Int) ∨ (0 : Int) ∈ ([1] : List Int)))
    ∧ ((_add_paramedmem_interpkernel nm_cpl [0] [1] 0).send_dec,
       (_add_paramedmem_interpkernel nm_cpl [0] [1] 0).recv_dec)
        = if (0 : Int) ∈ ([0] : List Int) then
            (some (_cs_paramedmem_create_InterpKernelDEC [0] [1]),
             some (_cs_paramedmem_create_InterpKernelDEC [1] [0]))
          else
            (some (_cs_paramedmem_create_InterpKernelDEC [1] [0]),
             some (_cs_paramedmem_create_InterpKernelDEC [0] [1])) :=
  ⟨⟨by decide, Or.inl (by decide)⟩,
   c6_dec_orientation nm_cpl [0] [1] 0 (by decide) (Or.inl (by decide))⟩

/-- C7: exporting a field and immediately importing it with the same
`on_parent` flag and no transfer in between reproduces, at every
destination position covered by the index mapping, exactly the value that
was exported, provided the compact/original mapping round-trips for the
flag used: for `on_parent` this holds outright since `elt_list` is used on
both sides, for the compact flag it requires `new_to_old` to invert the
contiguous forward copy, that is, to be the identity below `n_elts`. -/
theorem c7_export_import_roundtrip (dim n_elts : Nat)
    (elt_list new_to_old : Nat → Nat) (field_values val dest : Nat → ℚ)
    (i j : Nat) (hi : i < n_elts) (hj : j < dim)
    (hinv : ∀ i2, i2 < n_elts → new_to_old i2 = i2) :
    cs_paramedmem_field_import dim n_elts elt_list new_to_old true
        (cs_paramedmem_field_export dim n_elts elt_list true field_values val)
        dest (elt_list i * dim + j)
      = field_values (elt_list i * dim + j)
    ∧ cs_paramedmem_field_import dim n_elts elt_list new_to_old false
        (cs_paramedmem_field_export dim n_elts elt_list false field_values val)
        dest (new_to_old i * dim + j)
      = field_values (i * dim + j) := by
  constructor
  · show _import_scatter
        (_export_gather field_values elt_list dim n_elts val)
        elt_list dim n_elts dest (elt_list i * dim + j)
      = field_values (elt_list i * dim + j)
    exact _import_scatter_covered _ elt_list dim n_elts dest field_values i j
      (fun i2 j2 hi2 hj2 =>
        _export_gather_at field_values elt_list dim n_elts val i2 j2 hi2 hj2)
      hi hj
  · show _import_scatter
        (_export_block field_values (dim * n_elts) val)
        new_to_old dim n_elts dest (new_to_old i * dim + j)
      = field_values (i * dim + j)
    have hall : ∀ i2 j2, i2 < n_elts → j2 < dim →
        _export_block field_values (dim * n_elts) val (i2 * dim + j2)
          = field_values (new_to_old i2 * dim + j2) := by
      intro i2 j2 hi2 hj2
      rw [hinv i2 hi2]
      exact _export_block_at field_values (dim * n_elts) val (i2 * dim + j2)
        (idx_lt_mul hi2 hj2)
    have hmain := _import_scatter_covered
      (_export_block field_values (dim * n_elts) val) new_to_old dim n_elts
      dest field_values i j hall hi hj
    rw [hmain, hinv i hi]

/-- Witness for C7: a 2-component field over a 2-element selection of a
4-element parent mesh, selection list `i + 1`, identity inverse map,
evaluated at compact element 1, component 1. -/
theorem c7_export_import_roundtrip_witness :
    (1 < 2 ∧ 1 < 2)
    ∧ (cs_paramedmem_field_import 2 2 c7_elt_list c7_new_to_old true
          (cs_paramedmem_field_export 2 2 c7_elt_list true c7_field_values c7_val)
          c7_dest (c7_elt_list 1 * 2 + 1)
        = c7_field_values (c7_elt_list 1 * 2 + 1)
       ∧ cs_paramedmem_field_import 2 2 c7_elt_list c7_new_to_old false
          (cs_paramedmem_field_export 2 2 c7_elt_list false c7_field_values c7_val)
          c7_dest (c7_new_to_old 1 * 2 + 1)
        = c7_field_values (1 * 2 + 1)) :=
  ⟨⟨by decide, by decide⟩,
   c7_export_import_roundtrip 2 2 c7_elt_list c7_new_to_old c7_field_values
     c7_val c7_dest 1 1 (by decide) (by decide) (fun i2 _ => rfl)⟩

/-- C8: with on-parent indexing on both sides, export followed by import
writes the destination array only through `elt_list`: every entry whose
original element index is hit by no `elt_list[i]` with `i < n_elts` keeps
its previous value. -/
theorem c8_import_on_parent_frame (dim n_elts : Nat)
    (elt_list new_to_old : Nat → Nat) (field_values val dest : Nat → ℚ)
    (e j : Nat) (hj : j < dim) (he : ∀ i, i < n_elts → elt_list i ≠ e) :
    cs_paramedmem_field_import dim n_elts elt_list new_to_old true
        (cs_paramedmem_field_export dim n_elts elt_list true field_values val)
        dest (e * dim + j)
      = dest (e * dim + j) := by
  show _import_scatter
      (_export_gather field_values elt_list dim n_elts val)
      elt_list dim n_elts dest (e * dim + j)
    = dest (e * dim + j)
  exact _import_scatter_frame _ elt_list dim n_elts dest (e * dim + j)
    (fun i2 j2 hi2 hj2 hc => he i2 hi2 (rowcol_inj hj hj2 hc).1.symm)

/-- Witness for C8: the selection list `i + 1` never selects original
index 0, whose destination entries stay untouched. -/
theorem c8_import_on_parent_frame_witness :
    (1 < 2)
    ∧ cs_paramedmem_field_import 2 2 c8_elt_list c8_new_to_old true
        (cs_paramedmem_field_export 2 2 c8_elt_list true c8_field_values c8_val)
        c8_dest (0 * 2 + 1)
      = c8_dest (0 * 2 + 1) :=
  ⟨by decide,
   c8_import_on_parent_frame 2 2 c8_elt_list c8_new_to_old c8_field_values
     c8_val c8_dest 0 1 (by decide) (fun i _ => Nat.succ_ne_zero i)⟩

/-- C9: `cs_paramedmem_reattach_field` re-binds a field only when the
direction bitmask of its mesh is exactly 1 (send channel) or exactly 2
(receive channel); for any other bitmask, in particular 3 (mesh registered
as both source and destination), the field is attached to neither channel
and the session is returned unchanged. -/
theorem c9_reattach_field_requires_single_direction
    (coupling : cs_paramedmem_coupling_t) (field_id : Nat)
    (h1 : (coupling.meshes.getD
        (coupling.fields.getD field_id default_field).mesh_id
        default_mesh).direction ≠ 1)
    (h2 : (coupling.meshes.getD
        (coupling.fields.getD field_id default_field).mesh_id
        default_mesh).direction ≠ 2) :
    cs_paramedmem_reattach_field coupling field_id = coupling := by
  unfold cs_paramedmem_reattach_field
  dsimp only
  rw [if_neg h1, if_neg h2]

/-- Witness for C9: a concrete session whose single mesh has direction
bitmask 3; reattaching its field changes nothing. -/
theorem c9_reattach_field_requires_single_direction_witness :
    cs_paramedmem_reattach_field c9_session 0 = c9_session :=
  c9_reattach_field_requires_single_direction c9_session 0
    (by decide) (by decide)

/-- C10: a call of `cs_paramedmem_field_add` whose direction flag is
neither 1 nor 2, or whose matching exchange channel is null, does not
fail: it returns the fresh valid id `n_fields`, increments the field
count, and appends a field entry whose value buffer has `n_locs * dim`
entries (located points times components) but which carries no `ParaFIELD`
and is attached to no channel: both channels and the mesh list are left
unchanged. -/
theorem c10_field_add_detached (coupling : cs_paramedmem_coupling_t)
    (fname : String) (mesh_id dim : Nat)
    (medcpl_field_type medcpl_time_discr dirflag : Int)
    (h : (dirflag ≠ 1 ∧ dirflag ≠ 2)
      ∨ (dirflag = 1 ∧ coupling.send_dec = none)
      ∨ (dirflag = 2 ∧ coupling.recv_dec = none)) :
    (cs_paramedmem_field_add coupling fname mesh_id dim medcpl_field_type
        medcpl_time_discr dirflag).2 = coupling.n_fields
    ∧ (cs_paramedmem_field_add coupling fname mesh_id dim medcpl_field_type
        medcpl_time_discr dirflag).1.n_fields = coupling.n_fields + 1
    ∧ (cs_paramedmem_field_add coupling fname mesh_id dim medcpl_field_type
        medcpl_time_discr dirflag).1.fields
        = coupling.fields ++
          [{ mesh_id := mesh_id, dim := dim,
             td := _time_discr_of medcpl_time_discr, fname := fname,
             buf_size := _field_n_locs
               (coupling.meshes.getD mesh_id default_mesh)
               medcpl_field_type * dim,
             pf := none }]
    ∧ (cs_paramedmem_field_add coupling fname mesh_id dim medcpl_field_type
        medcpl_time_discr dirflag).1.send_dec = coupling.send_dec
    ∧ (cs_paramedmem_field_add coupling fname mesh_id dim medcpl_field_type
        medcpl_time_discr dirflag).1.recv_dec = coupling.recv_dec
    ∧ (cs_paramedmem_field_add coupling fname mesh_id dim medcpl_field_type
        medcpl_time_discr dirflag).1.meshes = coupling.meshes := by
  rcases h with ⟨hn1, hn2⟩ | ⟨h1, hsd⟩ | ⟨h2, hrd⟩
  · simp [cs_paramedmem_field_add, hn1, hn2]
  · subst h1
    simp [cs_paramedmem_field_add, hsd]
  · subst h2
    simp [cs_paramedmem_field_add, hrd]

/-- Witness for C10: a concrete session with one mesh and direction flag
7, which matches no channel. -/
theorem c10_field_add_detached_witness :
    ((7 : Int) ≠ 1 ∧ (7 : Int) ≠ 2)
    ∧ ((cs_paramedmem_field_add c10_session nm_f 0 2 cs_medcpl_cell_field
          cs_medcpl_one_time 7).2 = c10_session.n_fields
       ∧ (cs_paramedmem_field_add c10_session nm_f 0 2 cs_medcpl_cell_field
          cs_medcpl_one_time 7).1.n_fields = c10_session.n_fields + 1
       ∧ (cs_paramedmem_field_add c10_session nm_f 0 2 cs_medcpl_cell_field
          cs_medcpl_one_time 7).1.fields
          = c10_session.fields ++
            [{ mesh_id := 0, dim := 2,
               td := _time_discr_of cs_medcpl_one_time, fname := nm_f,
               buf_size := _field_n_locs
                 (c10_session.meshes.getD 0 default_mesh)
                 cs_medcpl_cell_field * 2,
               pf := none }]
       ∧ (cs_paramedmem_field_add c10_session nm_f 0 2 cs_medcpl_cell_field
          cs_medcpl_one_time 7).1.send_dec = c10_session.send_dec
       ∧ (cs_paramedmem_field_add c10_session nm_f 0 2 cs_medcpl_cell_field
          cs_medcpl_one_time 7).1.recv_dec = c10_session.recv_dec
       ∧ (cs_paramedmem_field_add c10_session nm_f 0 2 cs_medcpl_cell_field
          cs_medcpl_one_time 7).1.meshes = c10_session.meshes) :=
  ⟨⟨by decide, by decide⟩,
   c10_field_add_detached c10_session nm_f 0 2 cs_medcpl_cell_field
     cs_medcpl_one_time 7 (Or.inl ⟨by decide, by decide⟩)⟩
